import Mathlib

/-!
Verification development for the mod acquisition and local caching pipeline of
the Seamless-Mod-Swiper application.  The TypeScript sources
(`src/services/nexusService.ts`, `src/services/cacheService.ts`, `src/App.tsx`)
are shallowly embedded: network and storage I/O become explicit oracle
parameters, `Math.random` becomes an explicit stream of naturals, JavaScript
truthiness is modelled on `Option String`, and the single-threaded async
interleavings relevant to the claims become steps of explicit state machines.
-/

set_option maxRecDepth 4000

namespace SMS

deriving instance DecidableEq for Except

/-- Catalogs (the `Game` enum of `src/types.ts`); each constructor corresponds
to one of the distinct string enum values. -/
inductive Game where
  | cyberpunk
  | rdr2
  | newvegas
  | bg3
  | witcher3
deriving Repr, DecidableEq

/-- The string value of the `Game` enum member (used in URLs, cache keys and
`domain_name` fallbacks). -/
def gameStr : Game → String
  | Game.cyberpunk => "cyberpunk2077"
  | Game.rdr2 => "reddeadredemption2"
  | Game.newvegas => "newvegas"
  | Game.bg3 => "baldursgate3"
  | Game.witcher3 => "witcher3"

/-- One mod listing (the `Mod` interface of `types.ts`, restricted to the
fields the pipeline reads; all fields but `mod_id` and `domain_name` are
optional upstream). -/
structure Mod where
  mod_id : Nat
  name : Option String := none
  summary : Option String := none
  picture_url : Option String := none
  status : Option String := none
  available : Option Bool := none
  domain_name : String := ""
deriving Repr, DecidableEq

/-- JavaScript truthiness of an optional string: `undefined`/`null` and the
empty string are falsy. -/
def jsTruthy : Option String → Bool
  | none => false
  | some s => s ≠ ""

/-- The string content of an optional string, empty when absent. -/
def jsStr : Option String → String
  | none => ""
  | some s => s

/-- JavaScript `a || b` on an optional string: the default is used when the
value is absent or empty. -/
def jsOr (a : Option String) (b : String) : String :=
  if jsTruthy a then jsStr a else b

/-- `isValidMod` from `nexusService.ts`: a mod is displayable iff it has a
non-empty (after trim) name, a picture or a summary, a status that is absent
or `published`, and an availability flag that is not `false`.  The trim-based
source test `name.trim() === empty` (the name is whitespace-only) is expressed
as all-of-its-characters-are-whitespace, the same predicate in an executable
form. -/
def isValidMod (m : Mod) : Bool :=
  if ¬ jsTruthy m.name ∨ (jsStr m.name).data.all Char.isWhitespace then false
  else if ¬ jsTruthy m.picture_url ∧ ¬ jsTruthy m.summary then false
  else if jsTruthy m.status ∧ jsStr m.status ≠ "published" then false
  else if m.available = some false then false
  else true

/-- Rate limit information parsed from Nexus API response headers
(`RateLimitInfo` in `nexusService.ts`). -/
structure RateLimitInfo where
  hourlyLimit : Nat
  hourlyRemaining : Nat
  dailyLimit : Nat
  dailyRemaining : Nat
deriving Repr, DecidableEq

/-- An HTTP response as observed by the service layer: status, the headers the
code reads, and a body which is a list of ids (index endpoint), a list of mods
(curated-list endpoint) or a single mod (item endpoint).  `netFail` models the
`fetch` promise itself rejecting (network failure). -/
structure HttpResponse where
  netFail : Bool := false
  status : Nat := 200
  statusText : String := ""
  retryAfter : Option String := none
  hourlyLimitHdr : Option String := none
  hourlyRemainingHdr : Option String := none
  dailyLimitHdr : Option String := none
  dailyRemainingHdr : Option String := none
  idsBody : List Nat := []
  modsBody : List Mod := []
  modBody : Mod := { mod_id := 0 }
deriving Repr, DecidableEq

/-- `response.ok` of the Fetch API: status in the range 200-299. -/
def respOk (r : HttpResponse) : Bool :=
  200 ≤ r.status ∧ r.status ≤ 299

/-- `parseInt` on a header value; realistic header values are digit strings,
so the NaN case is not modelled. -/
def parseNat10 (s : String) : Nat :=
  (s.toNat?).getD 0

/-- `parseRateLimitHeaders` from `nexusService.ts`: requires both remaining
headers to be (truthily) present, and defaults the limits. -/
def parseRateLimitHeaders (r : HttpResponse) : Option RateLimitInfo :=
  if jsTruthy r.hourlyRemainingHdr ∧ jsTruthy r.dailyRemainingHdr then
    some { hourlyLimit := parseNat10 (jsOr r.hourlyLimitHdr ("100"))
           hourlyRemaining := parseNat10 (jsStr r.hourlyRemainingHdr)
           dailyLimit := parseNat10 (jsOr r.dailyLimitHdr ("2000"))
           dailyRemaining := parseNat10 (jsStr r.dailyRemainingHdr) }
  else none

/-- `fetchUpdatedModIds` from `nexusService.ts`, as a function of the HTTP
response it receives.  Every non-2xx response raises the single generic error
message carrying the status; a network failure rejects with the fetch error. -/
def fetchUpdatedModIds (r : HttpResponse) :
    Except String (List Nat × Option RateLimitInfo) :=
  if r.netFail then Except.error ("TypeError: Failed to fetch")
  else if respOk r then Except.ok (r.idsBody, parseRateLimitHeaders r)
  else Except.error ("Failed to fetch updated mods: " ++ toString r.status)

/-- `fetchModDetails` from `nexusService.ts`: never throws; a non-2xx response
or a network failure yields `none` so the caller skips the item.  On success
the `domain_name` falls back to the game string (`mod.domain_name || game`). -/
def fetchModDetails (r : HttpResponse) (game : Game) :
    Option Mod × Option RateLimitInfo :=
  if r.netFail then (none, none)
  else
    let rl := parseRateLimitHeaders r
    if respOk r then
      (some { r.modBody with
                domain_name :=
                  if r.modBody.domain_name = "" then gameStr game
                  else r.modBody.domain_name }, rl)
    else (none, rl)

/-- `fetchFromListEndpoint` from `nexusService.ts`: classifies non-2xx
responses into the four error messages (401 invalid key, 429 rate limited with
the `Retry-After` hint defaulted to 60, 403 forbidden, generic otherwise) and
on success maps the `domain_name` fallback over the body and filters it by
`isValidMod`. -/
def fetchFromListEndpoint (r : HttpResponse) (game : Game) :
    Except String (List Mod × Option RateLimitInfo) :=
  if r.netFail then Except.error ("TypeError: Failed to fetch")
  else
    let rl := parseRateLimitHeaders r
    if respOk r then
      Except.ok
        ((r.modsBody.map (fun m =>
            { m with domain_name :=
                if m.domain_name = "" then gameStr game else m.domain_name
            })).filter isValidMod, rl)
    else if r.status = 401 then
      Except.error ("Invalid API Key. Please check your Nexus Mods API key.")
    else if r.status = 429 then
      Except.error ("Rate limited by Nexus API. Please wait "
        ++ jsOr r.retryAfter ("60") ++ " seconds before trying again.")
    else if r.status = 403 then
      Except.error
        ("Access forbidden. Your API key may not have permission for this request.")
    else
      Except.error ("Nexus API Error: " ++ toString r.status ++ " " ++ r.statusText)

/-- Swap the elements at positions `i` and `j` of a list (no-op when either
index is out of range), mirroring the destructuring swap in `shuffleArray`. -/
def swapIdx (l : List α) (i j : Nat) : List α :=
  match l.get? i, l.get? j with
  | some a, some b => (l.set i b).set j a
  | _, _ => l

/-- The Fisher-Yates loop of `shuffleArray`: for `i` from `n-1` down to `1`,
swap position `i` with position `rnd i % (i+1)` (the explicit stream `rnd`
stands for `Math.floor(Math.random() * (i + 1))`). -/
def fisherYates (rnd : Nat → Nat) : Nat → List α → List α
  | 0, l => l
  | Nat.succ i, l => fisherYates rnd i (swapIdx l (i + 1) (rnd (i + 1) % (i + 2)))

/-- `shuffleArray` from `nexusService.ts` with its randomness made explicit. -/
def shuffleArray (rnd : Nat → Nat) (l : List α) : List α :=
  fisherYates rnd (l.length - 1) l

/-- The three recency windows of the "recently updated" index endpoint. -/
inductive Period where
  | m1
  | w1
  | d1
deriving Repr, DecidableEq

/-- The three curated-list endpoints queried in phase 3 of the bulk fetch. -/
inductive ListKind where
  | trending
  | latestAdded
  | latestUpdated
deriving Repr, DecidableEq

/-- The network, as the pipeline observes it: the response each endpoint would
deliver.  A pure oracle stands in for the remote service. -/
structure Oracle where
  pool : Period → HttpResponse
  detail : Nat → HttpResponse
  list : ListKind → HttpResponse

/-- Explicit randomness consumed by `fetchModsBulk`: the stream behind the two
`shuffleArray` calls and the per-index mock id offsets. -/
structure Rnd where
  idShuffle : Nat → Nat
  finalShuffle : Nat → Nat
  mockOffset : Nat → Nat

/-- The hard-coded `MOCK_MODS` of `constants.tsx` (the fields the pipeline
reads). -/
def MOCK_MODS : List Mod :=
  [ { mod_id := 12345
      name := some ("Arasaka Cyberarms")
      summary := some ("Replaces default arms with high-fidelity Arasaka cybernetics.")
      picture_url := some ("https://picsum.photos/600/400?random=1")
      domain_name := "cyberpunk2077" },
    { mod_id := 67890
      name := some ("Night City Alive")
      summary := some ("Overhauls traffic and pedestrian density for a more realistic city.")
      picture_url := some ("https://picsum.photos/600/400?random=2")
      domain_name := "cyberpunk2077" },
    { mod_id := 11111
      name := some ("Judy Romanced Enhanced")
      summary := some ("Adds new dialogue and interactions for Judy Alvarez.")
      picture_url := some ("https://picsum.photos/600/400?random=3")
      domain_name := "cyberpunk2077" } ]

/-- The `await delay(1500)` before the mock batch is returned. -/
def mockDelayMs : Nat := 1500

/-- The mock branch of `fetchModsBulk`: each mock gets its `mod_id` offset by
an independent `Math.floor(Math.random() * 10000)` (position `i` of the
stream) and its `domain_name` replaced by the requested game. -/
def applyMockOffsets (rnd : Nat → Nat) (game : Game) : List Mod :=
  ((List.range MOCK_MODS.length).zip MOCK_MODS).map
    (fun p => { p.2 with mod_id := p.2.mod_id + rnd p.1 % 10000
                         domain_name := gameStr game })

/-- The result of `fetchModsBulk` (`FetchModsResponse` plus an instrumentation
counter of how many network requests the run issued). -/
structure FetchOut where
  mods : List Mod
  rateLimit : Option RateLimitInfo
  networkCalls : Nat
deriving Repr, DecidableEq

/-- JavaScript `latest = rl ?? latest` pattern: a non-null rate-limit snapshot
overwrites the accumulator. -/
def updRL (acc : Option RateLimitInfo) (rl : Option RateLimitInfo) :
    Option RateLimitInfo :=
  match rl with
  | some x => some x
  | none => acc

/-- Phase-2 accumulator step of `fetchModsBulk`: fetch details for one id and
keep the mod when it exists, is displayable, and its id is not in the mutable
`seenIds` set (initialised from `excludeIds`).  The batching of ten concurrent
requests only paces the calls; the accumulation order is the order of
`idsToFetch`. -/
def detailStep (o : Oracle) (game : Game)
    (acc : List Mod × List Nat × Option RateLimitInfo) (id : Nat) :
    List Mod × List Nat × Option RateLimitInfo :=
  let r := fetchModDetails (o.detail id) game
  let rl := updRL acc.2.2 r.2
  match r.1 with
  | some m =>
      if isValidMod m ∧ ¬ m.mod_id ∈ acc.2.1 then
        (acc.1 ++ [m], acc.2.1 ++ [m.mod_id], rl)
      else (acc.1, acc.2.1, rl)
  | none => (acc.1, acc.2.1, rl)

/-- The dedup-by-id push used when merging curated-list mods: skip an id
already accumulated, otherwise append the mod and record its id. -/
def pushIfNew (ac : List Mod × List Nat × Option RateLimitInfo) (m : Mod) :
    List Mod × List Nat × Option RateLimitInfo :=
  if m.mod_id ∈ ac.2.1 then ac
  else (ac.1 ++ [m], ac.2.1 ++ [m.mod_id], ac.2.2)

/-- Phase-3 accumulator step of `fetchModsBulk` (see `pushIfNew`). -/
def listStep (acc : List Mod × List Nat × Option RateLimitInfo)
    (r : List Mod × Option RateLimitInfo) :
    List Mod × List Nat × Option RateLimitInfo :=
  r.1.foldl pushIfNew (acc.1, acc.2.1, updRL acc.2.2 r.2)

/-- `fetchModsBulk` from `nexusService.ts`.  An empty API key short-circuits to
the mock batch with no network traffic.  Otherwise: phase 1 unions the three
index windows (`Promise.allSettled`, failures logged and skipped) into an
insertion-ordered id pool excluding `excludeIds`; the pool is shuffled and the
first `count` ids fetched in detail; phase 3 merges the three curated lists
(`Promise.all`, a failure rejects the whole call; rejections are checked in
endpoint order here, a deterministic stand-in for settlement order); the
combined result is shuffled once more. -/
def fetchModsBulk (apiKey : String) (game : Game) (count : Nat)
    (excludeIds : List Nat) (o : Oracle) (rnd : Rnd) : Except String FetchOut :=
  if apiKey = "" then
    Except.ok { mods := applyMockOffsets rnd.mockOffset game
                rateLimit := none
                networkCalls := 0 }
  else
    let poolResults :=
      [fetchUpdatedModIds (o.pool Period.m1),
       fetchUpdatedModIds (o.pool Period.w1),
       fetchUpdatedModIds (o.pool Period.d1)]
    let rl1 : Option RateLimitInfo :=
      poolResults.foldl
        (fun acc r =>
          match r with
          | Except.ok (_, rl) => updRL acc rl
          | Except.error _ => acc)
        none
    let allModIds : List Nat :=
      poolResults.foldl
        (fun acc r =>
          match r with
          | Except.ok (ids, _) =>
              ids.foldl
                (fun a id =>
                  if id ∈ excludeIds ∨ id ∈ a then a else a ++ [id])
                acc
          | Except.error _ => acc)
        []
    let idsToFetch := (shuffleArray rnd.idShuffle allModIds).take count
    let p2 := idsToFetch.foldl (detailStep o game) ([], excludeIds, rl1)
    match fetchFromListEndpoint (o.list ListKind.trending) game,
          fetchFromListEndpoint (o.list ListKind.latestAdded) game,
          fetchFromListEndpoint (o.list ListKind.latestUpdated) game with
    | Except.ok t, Except.ok a, Except.ok u =>
        let p3 := [t, a, u].foldl listStep p2
        Except.ok { mods := shuffleArray rnd.finalShuffle p3.1
                    rateLimit := p3.2.2
                    networkCalls := 3 + idsToFetch.length + 3 }
    | Except.error e, _, _ => Except.error e
    | _, Except.error e, _ => Except.error e
    | _, _, Except.error e => Except.error e

/-- One record of the IndexedDB `mods` object store (`cacheService.ts`): the
composite `game_modId` key is modelled as the `(game, mod_id)` pair (the five
enum strings make the string key injective in the pair). -/
structure CacheEntry where
  game : Game
  mod_id : Nat
  data : Mod
  timestamp : Nat
deriving Repr, DecidableEq

/-- The IndexedDB database: the `mods` store and the `meta` store, whose
`lastUpdate_<game>` records are keyed by the game and carry a timestamp and a
mod count. -/
structure CacheDB where
  mods : List CacheEntry
  meta : List (Game × Nat × Nat)
deriving Repr, DecidableEq

/-- A freshly created (or fully cleared) database. -/
def emptyCache : CacheDB := { mods := [], meta := [] }

/-- Lookup of the `mods` store by composite key. -/
def lookupCachedData (db : CacheDB) (g : Game) (id : Nat) : Option Mod :=
  (db.mods.find? (fun e => decide (e.game = g ∧ e.mod_id = id))).map
    (fun e => e.data)

/-- The entries the `game` index returns for one catalog. -/
def cachedEntriesOf (db : CacheDB) (g : Game) : List CacheEntry :=
  db.mods.filter (fun e => decide (e.game = g))

/-- `getCachedMods` from `cacheService.ts`: every cached listing for the
catalog (the spec gives no ordering guarantee; insertion order is used
here). -/
def getCachedMods (db : CacheDB) (g : Game) : List Mod :=
  (cachedEntriesOf db g).map (fun e => e.data)

/-- `getCachedModCount` from `cacheService.ts` (`index.count(game)`). -/
def getCachedModCount (g : Game) (db : CacheDB) : Nat :=
  (cachedEntriesOf db g).length

/-- The ids the `game` index holds for one catalog. -/
def idsOfGame (db : CacheDB) (g : Game) : List Nat :=
  (cachedEntriesOf db g).map (fun e => e.mod_id)

/-- One iteration of the `appendToCachedMods` loop: `store.get(cacheKey)`
followed by a `store.put` only when no entry exists, counting insertions. -/
def appendStep (g : Game) (t : Nat) (st : CacheDB × Nat) (m : Mod) :
    CacheDB × Nat :=
  if (st.1.mods.find? (fun e => decide (e.game = g ∧ e.mod_id = m.mod_id))).isSome
  then st
  else ({ st.1 with mods := st.1.mods ++ [{ game := g, mod_id := m.mod_id, data := m, timestamp := t }] },
        st.2 + 1)

/-- The successful path of `appendToCachedMods`: insert-if-absent each mod in
order, returning the new database and the number of inserted records. -/
def appendToCachedModsOk (g : Game) (newMods : List Mod) (t : Nat)
    (db : CacheDB) : CacheDB × Nat :=
  newMods.foldl (appendStep g t) (db, 0)

/-- The database produced by `appendToCachedMods` (insertions only). -/
def appendMods (g : Game) (t : Nat) (db : CacheDB) (newMods : List Mod) :
    CacheDB :=
  (appendToCachedModsOk g newMods t db).1

/-- `appendToCachedMods` from `cacheService.ts` as its caller observes it.
The body wraps its work in try/catch, but the `new Promise` that settles with
the transaction is returned from inside the `try` without `await`, so a
transaction failure (e.g. quota exhaustion) is NOT caught by that catch: the
async function's promise rejects with the transaction error, and the aborted
transaction leaves the store unchanged.  `txFails` says whether the IndexedDB
transaction fails. -/
def appendToCachedMods (g : Game) (newMods : List Mod) (t : Nat)
    (db : CacheDB) (txFails : Bool) : Except String (CacheDB × Nat) :=
  if txFails then Except.error ("IndexedDB transaction error")
  else Except.ok (appendToCachedModsOk g newMods t db)

/-- `clearModCache` from `cacheService.ts`: delete every `mods` record the
`game` index yields for this catalog and the catalog's `lastUpdate` meta
record. -/
def clearModCache (g : Game) (db : CacheDB) : CacheDB :=
  { mods := db.mods.filter (fun e => !(decide (e.game = g)))
    meta := db.meta.filter (fun p => !(decide (p.1 = g))) }

/-- The meta record `lastUpdate_<game>`, when present. -/
def metaOf (db : CacheDB) (g : Game) : Option (Game × Nat × Nat) :=
  db.meta.find? (fun p => decide (p.1 = g))

/-- `getCacheAge` from `cacheService.ts`: `Math.round` of the minutes since
the catalog's meta timestamp, or null without a meta record.  Timestamps are
milliseconds; rounding half-up of `d / 60000` is `(d + 30000) / 60000` on
naturals. -/
def getCacheAge (g : Game) (db : CacheDB) (now : Nat) : Option Nat :=
  match metaOf db g with
  | some p => some ((now - p.2.1 + 30000) / 60000)
  | none => none

/-- `filterUnseenMods` from `cacheService.ts`: keep the mods whose id is not
in the seen set, preserving order. -/
def filterUnseenMods (mods : List Mod) (seenIds : List Nat) : List Mod :=
  mods.filter (fun m => decide (¬ m.mod_id ∈ seenIds))

/-- `getUnseenCachedMods` from `cacheService.ts`. -/
def getUnseenCachedMods (db : CacheDB) (g : Game) (seenIds : List Nat) :
    List Mod :=
  filterUnseenMods (getCachedMods db g) seenIds

/-- `BULK_FETCH_COUNT` from `App.tsx`. -/
def BULK_FETCH_COUNT : Nat := 300

/-- `LOW_QUEUE_THRESHOLD` from `App.tsx`. -/
def LOW_QUEUE_THRESHOLD : Nat := 20

/-- `AUTO_REFRESH_COOLDOWN` from `App.tsx` (milliseconds). -/
def AUTO_REFRESH_COOLDOWN : Nat := 60000

/-- JavaScript `Set.add` on an insertion-ordered set. -/
def addSeen (seen : List Nat) (id : Nat) : List Nat :=
  if id ∈ seen then seen else seen ++ [id]

/-- The application state the claims are about (`App.tsx` React state): one
process-wide seen-id set shared by every catalog, the approved list, the live
queue, the mod cache and the inline error message. -/
structure SysState where
  seen : List Nat
  approved : List Mod
  queue : List Mod
  cache : CacheDB
  errorMsg : Option String
deriving Repr, DecidableEq

/-- The initial state (fresh session, nothing persisted). -/
def initState : SysState :=
  { seen := [], approved := [], queue := [], cache := emptyCache,
    errorMsg := none }

/-- `handleApprove` from `App.tsx`: record the mod in the approved list and
add its raw id to the (catalog-independent) seen set. -/
def handleApprove (s : SysState) (m : Mod) : SysState :=
  { s with approved := s.approved ++ [m], seen := addSeen s.seen m.mod_id }

/-- `handleReject` from `App.tsx`: only add the raw id to the seen set. -/
def handleReject (s : SysState) (m : Mod) : SysState :=
  { s with seen := addSeen s.seen m.mod_id }

/-- The localStorage write of the seen set: always the single key
`seenModIds`, whatever catalog is active. -/
def saveSeenEntry (seen : List Nat) : String × String :=
  ("seenModIds", "[" ++ String.intercalate (",") (seen.map toString) ++ "]")

/-- JavaScript `new Map(ms.map(m => [m.mod_id, m])).values()`: keys keep their
first-insertion position, a later duplicate key overwrites the value, so the
result lists, in order of first occurrence of each id, the LAST mod carrying
that id. -/
def dedupById (ms : List Mod) : List Mod :=
  (ms.foldl (fun acc m => addSeen acc m.mod_id) []).filterMap
    (fun id => ms.reverse.find? (fun m => decide (m.mod_id = id)))

/-- The outcome of one `loadModsBulk` call: the successor state, the mods
newly handed to the UI by this call, and whether `fetchModsBulk` (network) was
invoked. -/
structure BulkResult where
  state : SysState
  delivered : List Mod
  networkFetched : Bool
deriving Repr, DecidableEq

/-- `loadModsBulk` from `App.tsx` for game `g`, as one atomic step of the
UI-driven event loop.  `resp` abstracts the mod list a `fetchModsBulk` call
returns to this invocation (claims about `fetchModsBulk` itself are stated
against `fetchModsBulk`); `txFails` is the cache-write transaction outcome.
A foreground call whose unseen-cache subset reaches `BULK_FETCH_COUNT / 2`
replaces the queue from cache and returns without touching the network.
Otherwise the fetched mods are appended to the cache (when non-empty; a write
failure propagates to the catch, which records the error and skips the
display code), the unseen fetched mods are merged with the unseen cached mods
(foreground: map-dedup by id, queue replaced; background: appended to the
queue minus ids already queued). -/
def loadModsBulkModel (g : Game) (resp : List Mod) (txFails : Bool)
    (now : Nat) (isBackground : Bool) (s : SysState) : BulkResult :=
  let cachedMods := getCachedMods s.cache g
  let unseenCached := filterUnseenMods cachedMods s.seen
  if BULK_FETCH_COUNT / 2 ≤ unseenCached.length ∧ isBackground = false then
    { state := { s with queue := unseenCached, errorMsg := none }
      delivered := unseenCached
      networkFetched := false }
  else
    match (if 0 < resp.length
           then appendToCachedMods g resp now s.cache txFails
           else Except.ok (s.cache, 0)) with
    | Except.error msg =>
        { state := { s with errorMsg := some msg }
          delivered := []
          networkFetched := true }
    | Except.ok (cache2, _) =>
        let unseenMods := filterUnseenMods resp s.seen
        let exhausted : Option String :=
          if unseenMods.length = 0 ∧ unseenCached.length = 0 then
            some ("No new mods found. You may have seen most available mods!")
          else none
        if isBackground = false then
          let uniqueUnseen := dedupById (unseenCached ++ unseenMods)
          { state := { s with cache := cache2, queue := uniqueUnseen,
                              errorMsg := exhausted }
            delivered := uniqueUnseen
            networkFetched := true }
        else
          let currentIds : List Nat := s.queue.map (fun m => m.mod_id)
          let newMods := unseenMods.filter
            (fun m => decide (¬ m.mod_id ∈ currentIds))
          { state := { s with cache := cache2, queue := s.queue ++ newMods,
                              errorMsg := exhausted }
            delivered := newMods
            networkFetched := true }

/-- The UI-driven events the no-repeat claims quantify over: a swipe decision
(`handleApprove` on approve, `handleReject` on reject) or a foreground /
background `loadModsBulk` call. -/
inductive Ev where
  | swipe (m : Mod) (approve : Bool)
  | reqFg (g : Game) (resp : List Mod) (txFails : Bool) (now : Nat)
  | reqBg (g : Game) (resp : List Mod) (txFails : Bool) (now : Nat)

/-- One event step: the successor state and the mods delivered to the UI by
this event. -/
def stepEv (s : SysState) : Ev → SysState × List Mod
  | Ev.swipe m a => (if a then handleApprove s m else handleReject s m, [])
  | Ev.reqFg g resp tf now =>
      let r := loadModsBulkModel g resp tf now false s
      (r.state, r.delivered)
  | Ev.reqBg g resp tf now =>
      let r := loadModsBulkModel g resp tf now true s
      (r.state, r.delivered)

/-- Run a list of events, returning the final state. -/
def runState (s : SysState) (evs : List Ev) : SysState :=
  evs.foldl (fun s e => (stepEv s e).1) s

/-- Run a list of events, collecting the batch each event delivered. -/
def runEvs (s : SysState) : List Ev → List (List Mod)
  | [] => []
  | e :: es => (stepEv s e).2 :: runEvs (stepEv s e).1 es

/-- The no-repeat property claimed of a sequence of delivered batches: no id
occurs in two distinct batches (nor twice across the sequence). -/
def noRepeats (batches : List (List Mod)) : Prop :=
  ∀ i j b1 b2 m1 m2, i < j → batches.get? i = some b1 →
    batches.get? j = some b2 → m1 ∈ b1 → m2 ∈ b2 → m1.mod_id ≠ m2.mod_id

/-- The cache-only-shortcut property claimed of `loadModsBulk` at a given
unseen-cache threshold: whenever the unseen-in-cache count reaches the
threshold, a foreground call issues no network fetch. -/
def cacheOnlyShortcutAt (threshold : Nat) : Prop :=
  ∀ g resp txFails now s,
    threshold ≤ (filterUnseenMods (getCachedMods (SysState.cache s) g)
                  (SysState.seen s)).length →
    (loadModsBulkModel g resp txFails now false s).networkFetched = false

/-- The state behind the auto-refresh effect of `App.tsx`: the `isAutoRefreshing`
ref (the in-flight guard), the `lastAutoRefresh` ref (cooldown clock), and an
instrumentation counter of network fetches issued. -/
structure ARState where
  isAutoRefreshing : Bool
  lastAutoRefresh : Nat
  fetchCount : Nat
deriving Repr, DecidableEq

/-- One invocation of `checkAndAutoRefresh` up to its first suspension: the
synchronous guard checks, then (when they pass) the guard and cooldown clock
are set before any awaited work starts.  `u` is the unseen-in-cache count the
awaited `getUnseenCachedMods` will report: at least `LOW_QUEUE_THRESHOLD`
means the queue is refilled from cache, otherwise a background network fetch
is issued. -/
def arTrigger (s : ARState) (apiKeyPresent viewSwiping isLoading isBulkLoading : Bool)
    (now q u : Nat) : ARState :=
  if ¬ apiKeyPresent ∨ ¬ viewSwiping ∨ isLoading ∨ isBulkLoading ∨
     s.isAutoRefreshing ∨ LOW_QUEUE_THRESHOLD ≤ q then s
  else if now - s.lastAutoRefresh < AUTO_REFRESH_COOLDOWN then s
  else if LOW_QUEUE_THRESHOLD ≤ u then
    { isAutoRefreshing := true, lastAutoRefresh := now,
      fetchCount := s.fetchCount }
  else
    { isAutoRefreshing := true, lastAutoRefresh := now,
      fetchCount := s.fetchCount + 1 }

/-- The `finally` block of `checkAndAutoRefresh`: the guard is cleared whether
the awaited body succeeded or failed. -/
def arComplete (s : ARState) (_succeeded : Bool) : ARState :=
  { s with isAutoRefreshing := false }

/-- A minimal displayable mod with a given id (used for concrete runs). -/
def mkMod (id : Nat) : Mod :=
  { mod_id := id, name := some ("Mod " ++ toString id),
    summary := some ("A mod."), picture_url := some ("https://img/" ++ toString id),
    domain_name := "cyberpunk2077" }

/-- A record that fails the displayability invariant (no name). -/
def badMod : Mod :=
  { mod_id := 2, summary := some ("Hidden record.") }

/-- A cache holding `n` distinct displayable mods for one catalog. -/
def cacheWith (g : Game) (n : Nat) : CacheDB :=
  { mods := (List.range n).map
      (fun i => { game := g, mod_id := i, data := mkMod i, timestamp := 0 })
    meta := [] }

/-- All-zero randomness for concrete runs. -/
def rnd0 : Rnd :=
  { idShuffle := fun _ => 0, finalShuffle := fun _ => 0, mockOffset := fun _ => 0 }

/-- An oracle whose every endpoint succeeds with an empty body (used where
the oracle is irrelevant). -/
def oNull : Oracle :=
  { pool := fun _ => { status := 200 },
    detail := fun _ => { status := 200 },
    list := fun _ => { status := 200 } }

/-- A concrete oracle for a bulk-fetch run: the one-month window yields ids 1
and 2, the other windows fail, id 1 resolves to a displayable mod, id 2 to a
record with no name, and the curated lists are empty. -/
def oW : Oracle :=
  { pool := fun p =>
      match p with
      | Period.m1 => { status := 200, idsBody := [1, 2] }
      | _ => { status := 500 }
    detail := fun id =>
      if id = 1 then { status := 200, modBody := mkMod 1 }
      else { status := 200, modBody := badMod }
    list := fun _ => { status := 200 } }

/-- An idle auto-refresh state with cold cooldown clock. -/
def arIdle : ARState :=
  { isAutoRefreshing := false, lastAutoRefresh := 0, fetchCount := 0 }

/-- A two-catalog database for frame-property runs. -/
def dbW : CacheDB :=
  { mods := [{ game := Game.cyberpunk, mod_id := 1, data := mkMod 1, timestamp := 5 },
             { game := Game.rdr2, mod_id := 2, data := mkMod 2, timestamp := 7 }]
    meta := [(Game.cyberpunk, 100, 1), (Game.rdr2, 200, 1)] }

/-- A 401 response carrying a Retry-After header. -/
def r401C : HttpResponse := { status := 401, retryAfter := some ("30") }

/-- A 429 response telling the client to wait 120 seconds. -/
def r429A : HttpResponse := { status := 429, retryAfter := some ("120") }

/-- A 429 response telling the client to wait 5 seconds. -/
def r429B : HttpResponse := { status := 429, retryAfter := some ("5") }

/-- A plain 403 response. -/
def r403C : HttpResponse := { status := 403 }

/-- A generic server failure. -/
def r500C : HttpResponse := { status := 500, statusText := "Internal Server Error" }

/-- The effect of one `appendToCachedMods` iteration on the database alone. -/
def dbStep (g : Game) (t : Nat) (db : CacheDB) (m : Mod) : CacheDB :=
  if (db.mods.find? (fun e => decide (e.game = g ∧ e.mod_id = m.mod_id))).isSome
  then db
  else { db with mods := db.mods ++ [{ game := g, mod_id := m.mod_id, data := m, timestamp := t }] }

/-- The record the first-inserting batch holds for an id: the first occurrence
in `B1` when `B1` mentions the id at all, else the first occurrence in `B2`. -/
def firstInserted (B1 B2 : List Mod) (id : Nat) : Option Mod :=
  (B1.find? (fun m => decide (m.mod_id = id))).or
    (B2.find? (fun m => decide (m.mod_id = id)))

/-- First concrete request event: a foreground call whose fetch returns one
mod. -/
def evA : Ev := Ev.reqFg Game.cyberpunk [mkMod 1] false 0

/-- Second concrete request event: a foreground call whose fetch returns
nothing (pool exhausted). -/
def evB : Ev := Ev.reqFg Game.cyberpunk [] false 0

/-- A fresh session whose cache holds 25 unseen mods. -/
def s25C : SysState := { initState with cache := cacheWith Game.cyberpunk 25 }

/-- A fresh session whose cache holds 150 unseen mods. -/
def s150C : SysState := { initState with cache := cacheWith Game.cyberpunk 150 }

/-- The mock batch produced by the all-zero randomness. -/
def mockOut : FetchOut :=
  { mods := applyMockOffsets rnd0.mockOffset Game.cyberpunk,
    rateLimit := none, networkCalls := 0 }

/-- The first mock listing under a zero offset. -/
def mockFirst : Mod :=
  { mod_id := 12345
    name := some ("Arasaka Cyberarms")
    summary := some ("Replaces default arms with high-fidelity Arasaka cybernetics.")
    picture_url := some ("https://picsum.photos/600/400?random=1")
    domain_name := "cyberpunk2077" }

/-- The bulk-fetch output of the concrete `oW` run. -/
def outW : FetchOut := { mods := [mkMod 1], rateLimit := none, networkCalls := 8 }

-- ## Theorems

/-- Claim C6: at most one network fetch per catalog is in flight at any time.
Conjuncts: (1) a trigger arriving while the guard is set is a silent no-op;
(2) the guaranteed-cleanup block clears the guard on success and on failure
alike; (3) whenever a trigger issues a fetch, it has set the in-flight guard;
(4) two concurrent triggers — the second arriving while the first's fetch is
in flight — issue exactly one network fetch, and the guard is clear again
after completion. -/
theorem checkAndAutoRefresh_single_inflight :
    (∀ s aK vS iL iBL now q u, s.isAutoRefreshing = true →
        arTrigger s aK vS iL iBL now q u = s) ∧
    (∀ s b, (arComplete s b).isAutoRefreshing = false) ∧
    (∀ s aK vS iL iBL now q u,
        (arTrigger s aK vS iL iBL now q u).fetchCount = s.fetchCount + 1 →
        (arTrigger s aK vS iL iBL now q u).isAutoRefreshing = true) ∧
    (∀ s now1 q1 u1 now2 q2 u2 b,
        s.isAutoRefreshing = false →
        q1 < LOW_QUEUE_THRESHOLD →
        AUTO_REFRESH_COOLDOWN ≤ now1 - s.lastAutoRefresh →
        u1 < LOW_QUEUE_THRESHOLD →
        (arComplete
          (arTrigger (arTrigger s true true false false now1 q1 u1)
            true true false false now2 q2 u2) b).fetchCount
            = s.fetchCount + 1 ∧
        (arComplete
          (arTrigger (arTrigger s true true false false now1 q1 u1)
            true true false false now2 q2 u2) b).isAutoRefreshing = false) := by
  refine ⟨?_, ?_, ?_, ?_⟩
  · intro s aK vS iL iBL now q u h
    simp [arTrigger, h]
  · intro s b
    simp [arComplete]
  · intro s aK vS iL iBL now q u h
    unfold arTrigger at h ⊢
    split at h
    next hc => simp at h
    next hc =>
      rw [if_neg hc]
      split at h
      next hc2 => simp at h
      next hc2 =>
        rw [if_neg hc2]
        split at h
        next hc3 => simp at h
        next hc3 => rw [if_neg hc3]
  · intro s now1 q1 u1 now2 q2 u2 b h0 hq hcool hu
    have h1 : arTrigger s true true false false now1 q1 u1 =
        { isAutoRefreshing := true, lastAutoRefresh := now1,
          fetchCount := s.fetchCount + 1 } := by
      simp [arTrigger, h0, Nat.not_le.mpr hq, Nat.not_lt.mpr hcool,
        Nat.not_le.mpr hu]
    rw [h1]
    simp [arTrigger, arComplete]

/-- Closed witness for the single-in-flight theorem: an idle state, a first
trigger at time 60000 with an empty queue and cache, and a second trigger one
millisecond later result in exactly one issued fetch. -/
theorem checkAndAutoRefresh_single_inflight_witness :
    (arComplete
      (arTrigger (arTrigger arIdle true true false false 60000 0 0)
        true true false false 60001 0 0) false).fetchCount = arIdle.fetchCount + 1 :=
  (checkAndAutoRefresh_single_inflight.2.2.2
    arIdle 60000 0 0 60001 0 0 false rfl (by decide) (by decide) (by decide)).1

theorem filter_self_filter_not (p : α → Bool) (l : List α) :
    (l.filter (fun a => !(p a))).filter p = [] := by
  induction l with
  | nil => rfl
  | cons a l ih => by_cases h : p a <;> simp [List.filter_cons, h, ih]

theorem find?_filter_not_self (p : α → Bool) (l : List α) :
    (l.filter (fun a => !(p a))).find? p = none := by
  induction l with
  | nil => rfl
  | cons a l ih => by_cases h : p a <;> simp [List.filter_cons, List.find?_cons, h, ih]

theorem filter_of_filter_not (p q : α → Bool) (l : List α)
    (hpq : ∀ a, q a = true → p a = false) :
    (l.filter (fun a => !(p a))).filter q = l.filter q := by
  induction l with
  | nil => rfl
  | cons a l ih =>
      by_cases hq : q a
      · have hp := hpq a hq
        simp [List.filter_cons, hp, hq, ih]
      · by_cases hp : p a <;>
          simp [List.filter_cons, hp, eq_false_of_ne_true hq, ih]

theorem find?_of_filter_not (p q : α → Bool) (l : List α)
    (hpq : ∀ a, q a = true → p a = false) :
    (l.filter (fun a => !(p a))).find? q = l.find? q := by
  induction l with
  | nil => rfl
  | cons a l ih =>
      by_cases hq : q a
      · have hp := hpq a hq
        simp [List.filter_cons, List.find?_cons, hp, hq, ih]
      · by_cases hp : p a <;>
          simp [List.filter_cons, List.find?_cons, hp,
            eq_false_of_ne_true hq, ih]

/-- Claim C8: `clearModCache g` empties the catalog's entries and meta record
— immediately afterwards its stats are count 0 and age null — and leaves the
entries and meta record of every other catalog untouched. -/
theorem clearModCache_frame (g : Game) (db : CacheDB) (now : Nat) :
    getCachedModCount g (clearModCache g db) = 0 ∧
    getCacheAge g (clearModCache g db) now = none ∧
    ∀ g', g' ≠ g →
      cachedEntriesOf (clearModCache g db) g' = cachedEntriesOf db g' ∧
      metaOf (clearModCache g db) g' = metaOf db g' := by
  refine ⟨?_, ?_, ?_⟩
  · have h := filter_self_filter_not (fun e : CacheEntry => decide (e.game = g)) db.mods
    simp [getCachedModCount, cachedEntriesOf, clearModCache, h]
  · have h := find?_filter_not_self (fun p : Game × Nat × Nat => decide (p.1 = g)) db.meta
    simp [getCacheAge, metaOf, clearModCache, h]
  · intro g' hne
    constructor
    · exact filter_of_filter_not _ _ db.mods
        (fun e he => by
          simp only [decide_eq_true_eq] at he
          simp [he, hne])
    · exact find?_of_filter_not _ _ db.meta
        (fun p hp => by
          simp only [decide_eq_true_eq] at hp
          simp [metaOf, hp, hne])

/-- Closed witness: clearing the Cyberpunk catalog of a two-catalog database
zeroes its stats and leaves the RDR2 catalog's entry and meta record intact. -/
theorem clearModCache_frame_witness :
    cachedEntriesOf (clearModCache Game.cyberpunk dbW) Game.rdr2 =
      cachedEntriesOf dbW Game.rdr2 ∧
    metaOf (clearModCache Game.cyberpunk dbW) Game.rdr2 = metaOf dbW Game.rdr2 :=
  (clearModCache_frame Game.cyberpunk dbW 0).2.2 Game.rdr2 (by decide)

/-- Claim C4 counterexample: a failing call of `fetchUpdatedModIds` does NOT
raise the typed taxonomy — 401 yields the same generic
`Failed to fetch updated mods: <status>` shape as any other status (not the
invalid-key error the code raises on its curated-list endpoint), and the 429
error is identical whatever the Retry-After header says. -/
theorem fetchUpdatedModIds_untyped_counterexample :
    fetchUpdatedModIds r401C =
      Except.error ("Failed to fetch updated mods: 401") ∧
    fetchUpdatedModIds r401C ≠
      Except.error ("Invalid API Key. Please check your Nexus Mods API key.") ∧
    fetchUpdatedModIds r429A = fetchUpdatedModIds r429B ∧
    fetchUpdatedModIds r500C =
      Except.error ("Failed to fetch updated mods: 500") := by
  refine ⟨rfl, ?_, rfl, rfl⟩
  decide

/-- Claim C4 amended: the 401/429/403/other classification (with the
Retry-After hint, defaulted to 60, on 429) is raised by
`fetchFromListEndpoint` — the curated-list client — while every failing
`fetchUpdatedModIds` call raises the one generic status-carrying error; the
four classified messages are pairwise distinct. -/
theorem listEndpoint_error_taxonomy :
    (∀ r : HttpResponse, r.netFail = false → respOk r = false →
        fetchUpdatedModIds r =
          Except.error ("Failed to fetch updated mods: " ++ toString r.status)) ∧
    (∀ (r : HttpResponse) (g : Game), r.netFail = false → r.status = 401 →
        fetchFromListEndpoint r g =
          Except.error ("Invalid API Key. Please check your Nexus Mods API key.")) ∧
    (∀ (r : HttpResponse) (g : Game), r.netFail = false → r.status = 429 →
        fetchFromListEndpoint r g =
          Except.error ("Rate limited by Nexus API. Please wait "
            ++ jsOr r.retryAfter ("60") ++ " seconds before trying again.")) ∧
    (∀ (r : HttpResponse) (g : Game), r.netFail = false → r.status = 403 →
        fetchFromListEndpoint r g =
          Except.error
            ("Access forbidden. Your API key may not have permission for this request.")) ∧
    (∀ (r : HttpResponse) (g : Game), r.netFail = false → respOk r = false →
        r.status ≠ 401 → r.status ≠ 429 → r.status ≠ 403 →
        fetchFromListEndpoint r g =
          Except.error ("Nexus API Error: " ++ toString r.status ++ " "
            ++ r.statusText)) ∧
    (fetchFromListEndpoint r401C Game.cyberpunk ≠
        fetchFromListEndpoint r429A Game.cyberpunk ∧
      fetchFromListEndpoint r401C Game.cyberpunk ≠
        fetchFromListEndpoint r403C Game.cyberpunk ∧
      fetchFromListEndpoint r401C Game.cyberpunk ≠
        fetchFromListEndpoint r500C Game.cyberpunk ∧
      fetchFromListEndpoint r429A Game.cyberpunk ≠
        fetchFromListEndpoint r403C Game.cyberpunk ∧
      fetchFromListEndpoint r429A Game.cyberpunk ≠
        fetchFromListEndpoint r500C Game.cyberpunk ∧
      fetchFromListEndpoint r403C Game.cyberpunk ≠
        fetchFromListEndpoint r500C Game.cyberpunk) := by
  refine ⟨?_, ?_, ?_, ?_, ?_, by decide⟩
  · intro r h1 h2
    simp [fetchUpdatedModIds, h1, h2]
  · intro r g h1 h2
    have hok : respOk r = false := by simp [respOk, h2]
    simp [fetchFromListEndpoint, h1, h2, hok]
  · intro r g h1 h2
    have hok : respOk r = false := by simp [respOk, h2]
    simp [fetchFromListEndpoint, h1, h2, hok]
  · intro r g h1 h2
    have hok : respOk r = false := by simp [respOk, h2]
    simp [fetchFromListEndpoint, h1, h2, hok]
  · intro r g h1 h2 h3 h4 h5
    simp [fetchFromListEndpoint, h1, h2, h3, h4, h5]

/-- Closed witness: the amended taxonomy at concrete failing responses. -/
theorem listEndpoint_error_taxonomy_witness :
    fetchUpdatedModIds r500C =
      Except.error ("Failed to fetch updated mods: " ++ toString r500C.status) ∧
    fetchFromListEndpoint r429A Game.cyberpunk =
      Except.error ("Rate limited by Nexus API. Please wait "
        ++ jsOr r429A.retryAfter ("60") ++ " seconds before trying again.") :=
  ⟨listEndpoint_error_taxonomy.1 r500C rfl (by decide),
   listEndpoint_error_taxonomy.2.2.1 r429A Game.cyberpunk rfl rfl⟩

/-- Claim C7, failing input: a non-empty fetched batch whose cache write dies
with a transaction error (quota).  Because `appendToCachedMods` returns the
transaction promise from inside its `try` without awaiting it, the rejection
escapes its catch, `loadModsBulk`'s own catch records the error, and the
fetched mods are never handed to the UI — contradicting the documented
must-not-abort behaviour. -/
theorem cacheWriteFailure_aborts_pipeline :
    appendToCachedMods Game.cyberpunk [mkMod 1] 0 emptyCache true =
      Except.error ("IndexedDB transaction error") ∧
    ([mkMod 1] : List Mod) ≠ [] ∧
    (loadModsBulkModel Game.cyberpunk [mkMod 1] true 0 false initState).delivered
      = [] ∧
    (loadModsBulkModel Game.cyberpunk [mkMod 1] true 0 false initState).state.queue
      = [] ∧
    (loadModsBulkModel Game.cyberpunk [mkMod 1] true 0 false initState).state.errorMsg
      = some ("IndexedDB transaction error") := by
  refine ⟨rfl, by decide, ?_, ?_, ?_⟩ <;> decide

theorem appendStep_fst (g : Game) (t : Nat) (st : CacheDB × Nat) (m : Mod) :
    (appendStep g t st m).1 = dbStep g t st.1 m := by
  unfold appendStep dbStep
  split
  next => rfl
  next => rfl

theorem foldl_appendStep_fst (g : Game) (t : Nat) :
    ∀ (ms : List Mod) (st : CacheDB × Nat),
      (ms.foldl (appendStep g t) st).1 = ms.foldl (dbStep g t) st.1 := by
  intro ms
  induction ms with
  | nil => intro st; rfl
  | cons m ms ih =>
      intro st
      rw [List.foldl_cons, List.foldl_cons, ih, appendStep_fst]

theorem appendMods_eq_foldl (g : Game) (t : Nat) (db : CacheDB) (ms : List Mod) :
    appendMods g t db ms = ms.foldl (dbStep g t) db := by
  unfold appendMods appendToCachedModsOk
  exact foldl_appendStep_fst g t ms (db, 0)

theorem lookup_foldl_dbStep (g : Game) (t : Nat) (id : Nat) :
    ∀ (ms : List Mod) (db : CacheDB),
      lookupCachedData (ms.foldl (dbStep g t) db) g id =
        (lookupCachedData db g id).or
          (ms.find? (fun m => decide (m.mod_id = id))) := by
  intro ms
  induction ms with
  | nil => intro db; simp [Option.or_none]
  | cons m ms ih =>
      intro db
      rw [List.foldl_cons, ih]
      by_cases hm : m.mod_id = id
      · by_cases hdb :
          (db.mods.find? (fun e => decide (e.game = g ∧ e.mod_id = m.mod_id))).isSome = true
        · obtain ⟨e, he⟩ := Option.isSome_iff_exists.mp hdb
          rw [hm] at he
          have hl : lookupCachedData db g id = some e.data := by
            unfold lookupCachedData
            rw [he]
            rfl
          have hstep : dbStep g t db m = db := by
            unfold dbStep
            rw [if_pos hdb]
          rw [hstep, hl, List.find?_cons_of_pos _ (by simp [hm])]
          simp
        · have hnone : db.mods.find?
              (fun e => decide (e.game = g ∧ e.mod_id = id)) = none := by
            rw [← hm]
            exact Option.not_isSome_iff_eq_none.mp hdb
          have hl0 : lookupCachedData db g id = none := by
            unfold lookupCachedData
            rw [hnone]
            rfl
          have hstep : dbStep g t db m =
              { db with mods := db.mods ++
                  [{ game := g, mod_id := m.mod_id, data := m, timestamp := t }] } := by
            unfold dbStep
            rw [if_neg hdb]
          rw [hstep]
          have hl : lookupCachedData
              { db with mods := db.mods ++
                  [{ game := g, mod_id := m.mod_id, data := m, timestamp := t }] }
              g id = some m := by
            unfold lookupCachedData
            rw [List.find?_append, hnone]
            simp [hm]
          rw [hl, hl0, List.find?_cons_of_pos _ (by simp [hm])]
          simp
      · have hstep : lookupCachedData (dbStep g t db m) g id =
            lookupCachedData db g id := by
          unfold dbStep
          split
          · rfl
          · unfold lookupCachedData
            rw [List.find?_append]
            have hone : List.find?
                (fun e : CacheEntry => decide (e.game = g ∧ e.mod_id = id))
                [{ game := g, mod_id := m.mod_id, data := m, timestamp := t }] = none := by
              simp [hm]
            rw [hone, Option.or_none]
        rw [hstep, List.find?_cons_of_neg _ (by simp [hm])]

theorem mem_addSeen (acc : List Nat) (a x : Nat) :
    x ∈ addSeen acc a ↔ x ∈ acc ∨ x = a := by
  unfold addSeen
  by_cases h : a ∈ acc
  · rw [if_pos h]
    constructor
    · exact fun hx => Or.inl hx
    · rintro (hx | rfl)
      · exact hx
      · exact h
  · rw [if_neg h]
    simp

theorem nodup_addSeen (acc : List Nat) (a : Nat) (h : acc.Nodup) :
    (addSeen acc a).Nodup := by
  unfold addSeen
  by_cases hm : a ∈ acc
  · rw [if_pos hm]; exact h
  · rw [if_neg hm]
    simp [List.nodup_append, h, hm]

theorem addSeen_foldl_mem :
    ∀ (l acc : List Nat) (x : Nat),
      x ∈ l.foldl addSeen acc ↔ x ∈ acc ∨ x ∈ l := by
  intro l
  induction l with
  | nil => intro acc x; simp
  | cons a l ih =>
      intro acc x
      rw [List.foldl_cons, ih, mem_addSeen, List.mem_cons]
      tauto

theorem addSeen_foldl_nodup :
    ∀ (l acc : List Nat), acc.Nodup → (l.foldl addSeen acc).Nodup := by
  intro l
  induction l with
  | nil => intro acc h; exact h
  | cons a l ih =>
      intro acc h
      rw [List.foldl_cons]
      exact ih _ (nodup_addSeen acc a h)

theorem find?_key_isSome_iff (db : CacheDB) (g : Game) (id : Nat) :
    (db.mods.find? (fun e => decide (e.game = g ∧ e.mod_id = id))).isSome = true
      ↔ id ∈ idsOfGame db g := by
  rw [List.find?_isSome]
  unfold idsOfGame cachedEntriesOf
  constructor
  · rintro ⟨e, hmem, hp⟩
    rw [decide_eq_true_eq] at hp
    rw [List.mem_map]
    exact ⟨e, List.mem_filter.mpr ⟨hmem, by simp [hp.1]⟩, hp.2⟩
  · intro hmem
    rcases List.mem_map.mp hmem with ⟨e, hf, hid⟩
    rcases List.mem_filter.mp hf with ⟨hmem2, hg⟩
    rw [decide_eq_true_eq] at hg
    exact ⟨e, hmem2, by simp [hg, hid]⟩

theorem idsOf_dbStep (g : Game) (t : Nat) (db : CacheDB) (m : Mod) :
    idsOfGame (dbStep g t db m) g = addSeen (idsOfGame db g) m.mod_id := by
  unfold dbStep
  split
  next h =>
    have hmem := (find?_key_isSome_iff db g m.mod_id).mp h
    unfold addSeen
    rw [if_pos hmem]
  next h =>
    have hnm : ¬ m.mod_id ∈ idsOfGame db g :=
      fun hmem => h ((find?_key_isSome_iff db g m.mod_id).mpr hmem)
    unfold addSeen
    rw [if_neg hnm]
    simp [idsOfGame, cachedEntriesOf, List.filter_append]

theorem idsOf_foldl (g : Game) (t : Nat) :
    ∀ (ms : List Mod) (db : CacheDB),
      idsOfGame (ms.foldl (dbStep g t) db) g =
        (ms.map (fun m => m.mod_id)).foldl addSeen (idsOfGame db g) := by
  intro ms
  induction ms with
  | nil => intro db; rfl
  | cons m ms ih =>
      intro db
      rw [List.foldl_cons, ih, List.map_cons, List.foldl_cons, idsOf_dbStep]

/-- Claim C3: two successive `appendToCachedMods` batches merge idempotently.
For every id, the stored record afterwards is the one of whichever batch
inserted that id first (existing entries untouched, first occurrence within a
batch winning), and the catalog's cache count equals the number of distinct
ids across the two batches. -/
theorem appendToCachedMods_idempotent_merge (g : Game) (B1 B2 : List Mod)
    (t1 t2 : Nat) :
    (∀ id, lookupCachedData
        (appendMods g t2 (appendMods g t1 emptyCache B1) B2) g id =
          firstInserted B1 B2 id) ∧
    getCachedModCount g (appendMods g t2 (appendMods g t1 emptyCache B1) B2) =
      ((B1 ++ B2).map (fun m => m.mod_id)).toFinset.card := by
  constructor
  · intro id
    rw [appendMods_eq_foldl, appendMods_eq_foldl, lookup_foldl_dbStep,
      lookup_foldl_dbStep]
    have hempty : lookupCachedData emptyCache g id = none := rfl
    rw [hempty, Option.none_or]
    rfl
  · rw [appendMods_eq_foldl, appendMods_eq_foldl]
    have hids : idsOfGame (B2.foldl (dbStep g t2)
        (B1.foldl (dbStep g t1) emptyCache)) g =
        ((B1 ++ B2).map (fun m => m.mod_id)).foldl addSeen [] := by
      rw [idsOf_foldl, idsOf_foldl, List.map_append, List.foldl_append]
      rfl
    have hcount : ∀ db : CacheDB,
        getCachedModCount g db = (idsOfGame db g).length := by
      intro db
      simp [getCachedModCount, idsOfGame]
    rw [hcount, hids]
    have hnd : (((B1 ++ B2).map (fun m => m.mod_id)).foldl addSeen []).Nodup :=
      addSeen_foldl_nodup _ _ List.nodup_nil
    have hfin : (((B1 ++ B2).map (fun m => m.mod_id)).foldl addSeen []).toFinset
        = ((B1 ++ B2).map (fun m => m.mod_id)).toFinset := by
      apply Finset.ext
      intro x
      simp [List.mem_toFinset, addSeen_foldl_mem]
    rw [← List.toFinset_card_of_nodup hnd, hfin]

theorem mem_filterUnseenMods (ms : List Mod) (seen : List Nat) (m : Mod)
    (h : m ∈ filterUnseenMods ms seen) : m ∈ ms ∧ ¬ m.mod_id ∈ seen := by
  rcases List.mem_filter.mp h with ⟨h1, h2⟩
  exact ⟨h1, of_decide_eq_true h2⟩

theorem mem_dedupById (ms : List Mod) (m : Mod) (h : m ∈ dedupById ms) :
    m ∈ ms := by
  unfold dedupById at h
  rcases List.mem_filterMap.mp h with ⟨id, _, hfind⟩
  exact List.mem_reverse.mp (List.mem_of_find?_eq_some hfind)

theorem loadModsBulk_seen (g : Game) (resp : List Mod) (tf : Bool) (now : Nat)
    (bg : Bool) (s : SysState) :
    (loadModsBulkModel g resp tf now bg s).state.seen = s.seen := by
  simp only [loadModsBulkModel]
  repeat' split
  all_goals rfl

theorem loadModsBulk_delivered_unseen (g : Game) (resp : List Mod) (tf : Bool)
    (now : Nat) (bg : Bool) (s : SysState) (m : Mod)
    (h : m ∈ (loadModsBulkModel g resp tf now bg s).delivered) :
    ¬ m.mod_id ∈ s.seen := by
  simp only [loadModsBulkModel] at h
  by_cases hc : BULK_FETCH_COUNT / 2 ≤
      (filterUnseenMods (getCachedMods s.cache g) s.seen).length ∧ bg = false
  · rw [if_pos hc] at h
    exact (mem_filterUnseenMods _ _ _ h).2
  · rw [if_neg hc] at h
    split at h
    · simp at h
    · split at h
      · have hm := mem_dedupById _ _ h
        rcases List.mem_append.mp hm with h1 | h1
        · exact (mem_filterUnseenMods _ _ _ h1).2
        · exact (mem_filterUnseenMods _ _ _ h1).2
      · have hm := List.mem_of_mem_filter h
        exact (mem_filterUnseenMods _ _ _ hm).2

theorem stepEv_seen_mono (s : SysState) (e : Ev) (x : Nat)
    (h : x ∈ s.seen) : x ∈ ((stepEv s e).1).seen := by
  cases e with
  | swipe m a =>
      cases a <;>
        simp [stepEv, handleApprove, handleReject, mem_addSeen, h]
  | reqFg g resp tf now =>
      show x ∈ (loadModsBulkModel g resp tf now false s).state.seen
      rw [loadModsBulk_seen]
      exact h
  | reqBg g resp tf now =>
      show x ∈ (loadModsBulkModel g resp tf now true s).state.seen
      rw [loadModsBulk_seen]
      exact h

theorem runState_seen_mono (evs : List Ev) :
    ∀ (s : SysState) (x : Nat), x ∈ s.seen → x ∈ (runState s evs).seen := by
  induction evs with
  | nil => intro s x h; exact h
  | cons e evs ih =>
      intro s x h
      exact ih _ _ (stepEv_seen_mono s e x h)

theorem stepEv_delivered_unseen (s : SysState) (e : Ev) (m : Mod)
    (h : m ∈ (stepEv s e).2) : ¬ m.mod_id ∈ s.seen := by
  cases e with
  | swipe m0 a => simp [stepEv] at h
  | reqFg g resp tf now => exact loadModsBulk_delivered_unseen _ _ _ _ _ _ _ h
  | reqBg g resp tf now => exact loadModsBulk_delivered_unseen _ _ _ _ _ _ _ h

theorem swipe_seen_self (s : SysState) (m0 : Mod) (a : Bool) :
    m0.mod_id ∈ ((stepEv s (Ev.swipe m0 a)).1).seen := by
  cases a <;>
    simp [stepEv, handleApprove, handleReject, mem_addSeen]

/-- Claim C1 amended: once an item id has been reported seen (approved or
rejected), no later `loadModsBulk` call — foreground or background, any
catalog, any fetch results — ever delivers that id to the UI again; the
original all-ids-never-repeat reading fails because an id the user has not
yet decided on may be delivered by several calls. -/
theorem no_redelivery_after_seen (s0 : SysState) (evs1 evs2 : List Ev)
    (m0 : Mod) (a : Bool) (e : Ev) (m : Mod)
    (h : m ∈ (stepEv (runState ((stepEv (runState s0 evs1) (Ev.swipe m0 a)).1)
        evs2) e).2) :
    m.mod_id ≠ m0.mod_id := by
  intro heq
  have h1 : m0.mod_id ∈ ((stepEv (runState s0 evs1) (Ev.swipe m0 a)).1).seen :=
    swipe_seen_self _ _ _
  have h2 := runState_seen_mono evs2 _ _ h1
  have h3 := stepEv_delivered_unseen _ _ _ h
  rw [heq] at h3
  exact h3 h2

/-- Closed witness: after rejecting mod 5, a foreground request that fetches
mod 7 delivers mod 7, whose id differs from 5. -/
theorem no_redelivery_after_seen_witness :
    mkMod 7 ∈ (stepEv (runState ((stepEv (runState initState [])
        (Ev.swipe (mkMod 5) false)).1) [])
        (Ev.reqFg Game.cyberpunk [mkMod 7] false 0)).2 ∧
    (mkMod 7).mod_id ≠ (mkMod 5).mod_id :=
  ⟨by decide,
   no_redelivery_after_seen initState [] [] (mkMod 5) false
     (Ev.reqFg Game.cyberpunk [mkMod 7] false 0) (mkMod 7) (by decide)⟩

/-- Claim C1 counterexample: as stated the claim is false.  Two foreground
requests with no swipe in between — the first fetching mod 1, the second
served from cache after the fetch pool dries up — both deliver mod 1, so an
id not yet reported seen is returned twice within one seen-set lifetime. -/
theorem requestBatch_norepeat_counterexample :
    ¬ noRepeats (runEvs initState [evA, evB]) := by
  intro h
  have hb : runEvs initState [evA, evB] = [[mkMod 1], [mkMod 1]] := by decide
  exact h 0 1 [mkMod 1] [mkMod 1] (mkMod 1) (mkMod 1) (by decide)
    (by rw [hb]; rfl) (by rw [hb]; rfl) (by decide) (by decide) rfl

/-- Claim C2 counterexample: the cache-only shortcut does NOT kick in at the
low-queue threshold of 20.  With 25 unseen cached mods, a foreground
`loadModsBulk` still issues a network fetch, because its shortcut requires
`BULK_FETCH_COUNT / 2 = 150` unseen cached mods. -/
theorem cacheOnly_at_low_threshold_counterexample :
    ¬ cacheOnlyShortcutAt LOW_QUEUE_THRESHOLD := by
  intro h
  have h25 : LOW_QUEUE_THRESHOLD ≤
      (filterUnseenMods (getCachedMods (SysState.cache s25C) Game.cyberpunk)
        (SysState.seen s25C)).length := by decide
  have hfalse := h Game.cyberpunk [] false 0 s25C h25
  have htrue : (loadModsBulkModel Game.cyberpunk [] false 0 false
      s25C).networkFetched = true := by decide
  rw [hfalse] at htrue
  exact Bool.false_ne_true htrue

/-- Claim C2 amended: the foreground cache-only shortcut requires at least
`BULK_FETCH_COUNT / 2 = 150` unseen cached listings — it then serves exactly
the unseen cached listings with no network call; the threshold-20 cache-serve
the claim describes lives in the background auto-refresh path, which refills
the queue without issuing a fetch when the unseen cache count is at least
`LOW_QUEUE_THRESHOLD = 20`. -/
theorem cacheOnly_shortcut :
    cacheOnlyShortcutAt (BULK_FETCH_COUNT / 2) ∧
    (∀ (g : Game) (resp : List Mod) (txFails : Bool) (now : Nat) (s : SysState),
        BULK_FETCH_COUNT / 2 ≤
          (filterUnseenMods (getCachedMods s.cache g) s.seen).length →
        (loadModsBulkModel g resp txFails now false s).delivered =
          filterUnseenMods (getCachedMods s.cache g) s.seen) ∧
    (∀ (s : ARState) (now q u : Nat),
        s.isAutoRefreshing = false →
        q < LOW_QUEUE_THRESHOLD →
        AUTO_REFRESH_COOLDOWN ≤ now - s.lastAutoRefresh →
        LOW_QUEUE_THRESHOLD ≤ u →
        (arTrigger s true true false false now q u).fetchCount = s.fetchCount) := by
  refine ⟨?_, ?_, ?_⟩
  · intro g resp txFails now s hlen
    simp only [loadModsBulkModel]
    rw [if_pos ⟨hlen, trivial⟩]
  · intro g resp txFails now s hlen
    simp only [loadModsBulkModel]
    rw [if_pos ⟨hlen, trivial⟩]
  · intro s now q u h0 hq hcool hu
    simp [arTrigger, h0, Nat.not_le.mpr hq, Nat.not_lt.mpr hcool, hu]

/-- Closed witness: with 150 unseen cached mods a foreground call is served
from cache with no network fetch. -/
theorem cacheOnly_shortcut_witness :
    (loadModsBulkModel Game.cyberpunk [] false 0 false s150C).networkFetched
      = false :=
  cacheOnly_shortcut.1 Game.cyberpunk [] false 0 s150C (by decide)

/-- Claim C9: the seen-id set is one global, catalog-independent set.
Approving or rejecting adds the raw item id to it (no catalog tag), it is
persisted under the single localStorage key `seenModIds`, and a batch
delivered afterwards for ANY catalog never contains that id. -/
theorem seen_set_global :
    (∀ (s : SysState) (m : Mod),
        (handleApprove s m).seen = addSeen s.seen m.mod_id ∧
        (handleReject s m).seen = addSeen s.seen m.mod_id) ∧
    (∀ seen : List Nat, (saveSeenEntry seen).1 = "seenModIds") ∧
    (∀ (s : SysState) (m0 : Mod) (a : Bool) (g : Game) (resp : List Mod)
        (tf : Bool) (now : Nat) (bg : Bool) (m : Mod),
        m ∈ (loadModsBulkModel g resp tf now bg
            (if a then handleApprove s m0 else handleReject s m0)).delivered →
        m.mod_id ≠ m0.mod_id) := by
  refine ⟨fun s m => ⟨rfl, rfl⟩, fun seen => rfl, ?_⟩
  intro s m0 a g resp tf now bg m hmem heq
  have hns := loadModsBulk_delivered_unseen _ _ _ _ _ _ _ hmem
  apply hns
  rw [heq]
  cases a <;> simp [handleApprove, handleReject, mem_addSeen]

/-- Closed witness: after approving mod 5 (any catalog), a request for a
DIFFERENT catalog delivering mod 7 shows the cross-catalog filter at work. -/
theorem seen_set_global_witness :
    mkMod 7 ∈ (loadModsBulkModel Game.rdr2 [mkMod 7] false 0 false
        (if true then handleApprove initState (mkMod 5)
         else handleReject initState (mkMod 5))).delivered ∧
    (mkMod 7).mod_id ≠ (mkMod 5).mod_id :=
  ⟨by decide,
   seen_set_global.2.2 initState (mkMod 5) true Game.rdr2 [mkMod 7] false 0
     false (mkMod 7) (by decide)⟩

/-- Claim C10: with an empty API key `fetchModsBulk` touches no network
endpoint and, after the fixed 1500 ms delay, returns exactly the three mock
listings, each `mod_id` offset by an independent random value below 10000,
with a null rate-limit snapshot; `excludeIds` is ignored on this path, so a
returned id may lie in `excludeIds` (witnessed with `excludeIds = [12345]`
and zero offsets). -/
theorem fetchModsBulk_mock_path :
    (∀ (g : Game) (count : Nat) (ex : List Nat) (o : Oracle) (rnd : Rnd),
        fetchModsBulk ("") g count ex o rnd =
          Except.ok { mods := applyMockOffsets rnd.mockOffset g,
                      rateLimit := none, networkCalls := 0 }) ∧
    mockDelayMs = 1500 ∧
    (∀ (rnd : Nat → Nat) (g : Game) (m : Mod), m ∈ applyMockOffsets rnd g →
        ∃ j, j < 10000 ∧ (m.mod_id = 12345 + j ∨ m.mod_id = 67890 + j ∨
          m.mod_id = 11111 + j)) ∧
    (fetchModsBulk ("") Game.cyberpunk 300 [12345] oNull rnd0 =
        Except.ok mockOut ∧ mockFirst ∈ mockOut.mods ∧
        mockFirst.mod_id ∈ [12345]) := by
  refine ⟨?_, rfl, ?_, by decide, by decide, by decide⟩
  · intro g count ex o rnd
    rfl
  · intro rnd g m hm
    have hexp : applyMockOffsets rnd g =
        [{ mod_id := 12345 + rnd 0 % 10000
           name := some ("Arasaka Cyberarms")
           summary := some ("Replaces default arms with high-fidelity Arasaka cybernetics.")
           picture_url := some ("https://picsum.photos/600/400?random=1")
           domain_name := gameStr g },
         { mod_id := 67890 + rnd 1 % 10000
           name := some ("Night City Alive")
           summary := some ("Overhauls traffic and pedestrian density for a more realistic city.")
           picture_url := some ("https://picsum.photos/600/400?random=2")
           domain_name := gameStr g },
         { mod_id := 11111 + rnd 2 % 10000
           name := some ("Judy Romanced Enhanced")
           summary := some ("Adds new dialogue and interactions for Judy Alvarez.")
           picture_url := some ("https://picsum.photos/600/400?random=3")
           domain_name := gameStr g }] := rfl
    rw [hexp] at hm
    rcases List.mem_cons.mp hm with rfl | hm
    · exact ⟨rnd 0 % 10000, Nat.mod_lt _ (by decide), Or.inl rfl⟩
    rcases List.mem_cons.mp hm with rfl | hm
    · exact ⟨rnd 1 % 10000, Nat.mod_lt _ (by decide), Or.inr (Or.inl rfl)⟩
    rcases List.mem_cons.mp hm with rfl | hm
    · exact ⟨rnd 2 % 10000, Nat.mod_lt _ (by decide), Or.inr (Or.inr rfl)⟩
    · simp at hm

/-- Closed witness: the first mock listing's id is one of the three base ids
plus an offset below 10000. -/
theorem fetchModsBulk_mock_path_witness :
    ∃ j, j < 10000 ∧ (mockFirst.mod_id = 12345 + j ∨
      mockFirst.mod_id = 67890 + j ∨ mockFirst.mod_id = 11111 + j) :=
  fetchModsBulk_mock_path.2.2.1 (fun _ => 0) Game.cyberpunk mockFirst (by decide)

theorem mem_swapIdx (l : List α) (i j : Nat) (x : α) (h : x ∈ swapIdx l i j) :
    x ∈ l := by
  unfold swapIdx at h
  split at h
  next a b ha hb =>
    rcases List.mem_or_eq_of_mem_set h with h1 | rfl
    · rcases List.mem_or_eq_of_mem_set h1 with h2 | rfl
      · exact h2
      · exact List.get?_mem hb
    · exact List.get?_mem ha
  next => exact h

theorem mem_fisherYates (rnd : Nat → Nat) :
    ∀ (n : Nat) (l : List α) (x : α), x ∈ fisherYates rnd n l → x ∈ l := by
  intro n
  induction n with
  | zero => intro l x h; exact h
  | succ i ih =>
      intro l x h
      simp only [fisherYates] at h
      exact mem_swapIdx _ _ _ _ (ih _ _ h)

theorem mem_shuffleArray (rnd : Nat → Nat) (l : List α) (x : α)
    (h : x ∈ shuffleArray rnd l) : x ∈ l :=
  mem_fisherYates rnd _ l x h

theorem detailStep_valid_one (o : Oracle) (g : Game)
    (acc : List Mod × List Nat × Option RateLimitInfo) (id : Nat)
    (hacc : ∀ m ∈ acc.1, isValidMod m = true) :
    ∀ m ∈ (detailStep o g acc id).1, isValidMod m = true := by
  intro x hx
  simp only [detailStep] at hx
  split at hx
  next m heq =>
    split at hx
    next hv =>
      rcases List.mem_append.mp hx with h1 | h1
      · exact hacc x h1
      · have h2 := List.mem_singleton.mp h1
        rw [h2]
        exact hv.1
    next hv => exact hacc x hx
  next heq => exact hacc x hx

theorem foldl_detailStep_valid (o : Oracle) (g : Game) :
    ∀ (ids : List Nat) (acc : List Mod × List Nat × Option RateLimitInfo),
      (∀ m ∈ acc.1, isValidMod m = true) →
      ∀ m ∈ (ids.foldl (detailStep o g) acc).1, isValidMod m = true := by
  intro ids
  induction ids with
  | nil => intro acc h; exact h
  | cons id ids ih =>
      intro acc hacc
      rw [List.foldl_cons]
      exact ih _ (detailStep_valid_one o g acc id hacc)

theorem foldl_pushIfNew_valid :
    ∀ (ms : List Mod) (ac : List Mod × List Nat × Option RateLimitInfo),
      (∀ m ∈ ac.1, isValidMod m = true) →
      (∀ m ∈ ms, isValidMod m = true) →
      ∀ m ∈ (ms.foldl pushIfNew ac).1, isValidMod m = true := by
  intro ms
  induction ms with
  | nil => intro ac hac _; exact hac
  | cons m0 ms ih =>
      intro ac hac hms
      rw [List.foldl_cons]
      apply ih
      · unfold pushIfNew
        split
        · exact hac
        · intro x hx
          rcases List.mem_append.mp hx with h1 | h1
          · exact hac x h1
          · have h2 := List.mem_singleton.mp h1
            rw [h2]
            exact hms m0 (List.mem_cons_self m0 ms)
      · intro x hx
        exact hms x (List.mem_cons_of_mem m0 hx)

theorem listStep_valid (acc : List Mod × List Nat × Option RateLimitInfo)
    (r : List Mod × Option RateLimitInfo)
    (hacc : ∀ m ∈ acc.1, isValidMod m = true)
    (hr : ∀ m ∈ r.1, isValidMod m = true) :
    ∀ m ∈ (listStep acc r).1, isValidMod m = true := by
  unfold listStep
  exact foldl_pushIfNew_valid r.1 _ hacc hr

theorem fetchFromListEndpoint_valid (r : HttpResponse) (g : Game)
    (l : List Mod) (rl : Option RateLimitInfo)
    (h : fetchFromListEndpoint r g = Except.ok (l, rl)) :
    ∀ m ∈ l, isValidMod m = true := by
  unfold fetchFromListEndpoint at h
  split at h
  · cases h
  · split at h
    · injection h with h1
      injection h1 with h2 h3
      intro m hm
      rw [← h2] at hm
      exact List.of_mem_filter hm
    · split at h
      · cases h
      · split at h
        · cases h
        · split at h
          · cases h
          · cases h

theorem isValidMod_fields (id : Nat) (dn : String) (nm sm pu st : Option String)
    (av : Option Bool) :
    isValidMod { mod_id := id, name := nm, summary := sm, picture_url := pu,
                 status := st, available := av, domain_name := dn } =
      isValidMod { mod_id := 0, name := nm, summary := sm, picture_url := pu,
                   status := st, available := av, domain_name := "" } := by
  rfl

theorem mockMods_valid (rnd : Nat → Nat) (g : Game) :
    ∀ m ∈ applyMockOffsets rnd g, isValidMod m = true := by
  intro m hm
  have hexp : applyMockOffsets rnd g =
      [{ mod_id := 12345 + rnd 0 % 10000
         name := some ("Arasaka Cyberarms")
         summary := some ("Replaces default arms with high-fidelity Arasaka cybernetics.")
         picture_url := some ("https://picsum.photos/600/400?random=1")
         domain_name := gameStr g },
       { mod_id := 67890 + rnd 1 % 10000
         name := some ("Night City Alive")
         summary := some ("Overhauls traffic and pedestrian density for a more realistic city.")
         picture_url := some ("https://picsum.photos/600/400?random=2")
         domain_name := gameStr g },
       { mod_id := 11111 + rnd 2 % 10000
         name := some ("Judy Romanced Enhanced")
         summary := some ("Adds new dialogue and interactions for Judy Alvarez.")
         picture_url := some ("https://picsum.photos/600/400?random=3")
         domain_name := gameStr g }] := rfl
  rw [hexp] at hm
  rcases List.mem_cons.mp hm with h | hm
  · rw [h, isValidMod_fields]
    decide
  rcases List.mem_cons.mp hm with h | hm
  · rw [h, isValidMod_fields]
    decide
  rcases List.mem_cons.mp hm with h | hm
  · rw [h, isValidMod_fields]
    decide
  · simp at hm

theorem mem_appendMods_entries (g : Game) (t : Nat) :
    ∀ (ms : List Mod) (db : CacheDB) (e : CacheEntry),
      e ∈ (appendMods g t db ms).mods → e ∈ db.mods ∨ e.data ∈ ms := by
  intro ms
  induction ms with
  | nil =>
      intro db e h
      rw [appendMods_eq_foldl] at h
      exact Or.inl h
  | cons m ms ih =>
      intro db e h
      rw [appendMods_eq_foldl, List.foldl_cons] at h
      have h2 : e ∈ (appendMods g t (dbStep g t db m) ms).mods := by
        rw [appendMods_eq_foldl]
        exact h
      rcases ih (dbStep g t db m) e h2 with h3 | h3
      · unfold dbStep at h3
        split at h3
        · exact Or.inl h3
        · rcases List.mem_append.mp h3 with h4 | h4
          · exact Or.inl h4
          · rcases List.mem_singleton.mp h4 with rfl
            exact Or.inr (List.mem_cons_self m ms)
      · exact Or.inr (List.mem_cons_of_mem m h3)

theorem foldl_listStep_valid_three (t a u : List Mod × Option RateLimitInfo)
    (p2 : List Mod × List Nat × Option RateLimitInfo)
    (hp2 : ∀ m ∈ p2.1, isValidMod m = true)
    (ht : ∀ m ∈ t.1, isValidMod m = true)
    (ha : ∀ m ∈ a.1, isValidMod m = true)
    (hu : ∀ m ∈ u.1, isValidMod m = true) :
    ∀ m ∈ ([t, a, u].foldl listStep p2).1, isValidMod m = true := by
  have h1 := listStep_valid p2 t hp2 ht
  have h2 := listStep_valid _ a h1 ha
  have h3 := listStep_valid _ u h2 hu
  exact h3

/-- Claim C5: every listing in a batch `fetchModsBulk` returns is displayable
(`isValidMod`), on the mock path and the network path alike, and inserting
such a batch into the cache only ever adds displayable records — a fetched
record failing the invariant never reaches a returned batch or the cache. -/
theorem fetchModsBulk_displayable (apiKey : String) (g : Game) (count : Nat)
    (ex : List Nat) (o : Oracle) (rnd : Rnd) (out : FetchOut)
    (hok : fetchModsBulk apiKey g count ex o rnd = Except.ok out) :
    (∀ m ∈ out.mods, isValidMod m = true) ∧
    (∀ (g' : Game) (t : Nat) (db : CacheDB) (e : CacheEntry),
        e ∈ (appendMods g' t db out.mods).mods →
        e ∈ db.mods ∨ isValidMod e.data = true) := by
  have hmods : ∀ m ∈ out.mods, isValidMod m = true := by
    unfold fetchModsBulk at hok
    split at hok
    · injection hok with h1
      rw [← h1]
      exact mockMods_valid rnd.mockOffset g
    · split at hok
      next t a u ht ha hu =>
        injection hok with h1
        rw [← h1]
        intro m hm
        have hm2 := mem_shuffleArray rnd.finalShuffle _ m hm
        refine foldl_listStep_valid_three t a u _ ?_ ?_ ?_ ?_ m hm2
        · exact foldl_detailStep_valid o g _ _ (by intro x hx; cases hx)
        · exact fetchFromListEndpoint_valid _ _ _ _ ht
        · exact fetchFromListEndpoint_valid _ _ _ _ ha
        · exact fetchFromListEndpoint_valid _ _ _ _ hu
      all_goals cases hok
  refine ⟨hmods, ?_⟩
  intro g' t db e he
  rcases mem_appendMods_entries g' t out.mods db e he with h1 | h1
  · exact Or.inl h1
  · exact Or.inr (hmods e.data h1)

/-- Closed witness: a concrete bulk-fetch run (ids 1 and 2 in the pool, id 2
resolving to a nameless record) returns exactly the displayable mod 1, which
satisfies the invariant. -/
theorem fetchModsBulk_displayable_witness :
    isValidMod (mkMod 1) = true :=
  (fetchModsBulk_displayable ("k") Game.cyberpunk 10 [] oW rnd0 outW
      (by decide)).1 (mkMod 1) (by decide)

end SMS
